import Mathlib

/-!
Verification of the ChisCode generation orchestrator (`src/app/main.py`)
against its natural-language specification.

The Python module is shallowly embedded:

* a Python `Dict[str, str]` of generated files is an association list with
  the usual first-match lookup (Python dict keys are unique, which appears
  as a `Nodup` hypothesis where it matters);
* the advisor `prepare_deployment_options` (main.py lines 709-735) is a
  pure Lean function;
* the pipeline body `process_user_request` (main.py lines 463-645) is a
  function of an environment of external-call oracles (orchestrator
  methods, the confirmation prompt, the preview service), returning a
  record of the observable outcome of one run;
* the session-level handlers `on_message` / `on_stop` and the scheduling
  of the pipeline's awaited segments are a small event-step system, used
  for the single-flight and cancellation claims.
-/

namespace ChisCode

/-! ### String containment (Python's `"x" in s`) -/

/-- Boolean test that the first character list starts the second. -/
def leadsWith : List Char → List Char → Bool
  | [], _ => true
  | _ :: _, [] => false
  | a :: as, b :: bs => a == b && leadsWith as bs

/-- Boolean test that the first character list occurs contiguously inside the second. -/
def subListOf (needle : List Char) : List Char → Bool
  | [] => needle.isEmpty
  | c :: rest => leadsWith needle (c :: rest) || subListOf needle rest

/-- Python's substring containment `pat in hay`. -/
def strContains (hay pat : String) : Bool :=
  subListOf pat.data hay.data

/-! ### Python `Dict[str, str]` as an association list -/

/-- A `Dict[str, str]` mapping relative file path to file content (the
GenerationResult of the spec). -/
abbrev Files := List (String × String)

/-- Dictionary lookup: first binding of the key, if any. -/
def lookup : Files → String → Option String
  | [], _ => none
  | (k', v) :: rest, k => if k' == k then some v else lookup rest k

/-- Python's `k in files` (key membership). -/
def containsKey (files : Files) (k : String) : Bool :=
  (lookup files k).isSome

/-- Python's `files.get(k, d)`. -/
def dictGet (files : Files) (k d : String) : String :=
  (lookup files k).getD d

/-- Python's `files[k] = v`: overwrite the existing binding in place, else
append a new binding at the end. -/
def insertFile : Files → String → String → Files
  | [], k, v => [(k, v)]
  | (k', v') :: rest, k, v =>
    if k' == k then (k', v) :: rest else (k', v') :: insertFile rest k v

/-! ### Deployment Advisor (`prepare_deployment_options`, main.py 709-735) -/

/-- Line 714: `"next.config.js" in files or "next.config.ts" in files`. -/
def has_nextjs (files : Files) : Bool :=
  containsKey files "next.config.js" || containsKey files "next.config.ts"

/-- Line 715: `"package.json" in files and "react" in files.get("package.json", "")`. -/
def has_react (files : Files) : Bool :=
  containsKey files "package.json" && strContains (dictGet files "package.json" "") "react"

/-- Line 716: `"manage.py" in files`. -/
def has_django (files : Files) : Bool :=
  containsKey files "manage.py"

/-- Line 717: `any("fastapi" in content for content in files.values())`. -/
def has_fastapi (files : Files) : Bool :=
  files.any fun p => strContains p.2 "fastapi"

/-- The `options` dict returned by `prepare_deployment_options`. -/
structure DeploymentOptions where
  recommended : List String
  supported : List String
deriving DecidableEq, Repr

/-- Lines 709-735 of main.py: the advisor.  Note the source chains the
Next.js and React cases with `elif`, while the Django/FastAPI case is an
independent `if`; each taken branch appends to the two lists. -/
def prepare_deployment_options (files : Files) : DeploymentOptions :=
  let options : DeploymentOptions := { recommended := [], supported := [] }
  let options :=
    if has_nextjs files then
      { recommended := options.recommended ++ ["vercel"],
        supported := options.supported ++ ["netlify", "railway"] }
    else if has_react files then
      { recommended := options.recommended ++ ["netlify"],
        supported := options.supported ++ ["vercel", "render"] }
    else options
  if has_django files || has_fastapi files then
    { recommended := options.recommended ++ ["railway"],
      supported := options.supported ++ ["render", "fly.io", "aws"] }
  else options

/-! ### Pipeline data model (`process_user_request`, main.py 463-645) -/

/-- The `GenerationStatus` values referenced by main.py (lines 113, 220,
245, 473, 517, 630, 636, 689). -/
inductive GenStatus
  | IDLE
  | GENERATING
  | CANCELLED
  | COMPLETED
  | FAILED
deriving DecidableEq, Repr

/-- The dict returned by `orchestrator.analyze_requirements`: main.py reads
`requirements.get('features', [])` (line 485) and
`requirements.get("project_name", "My App")` (line 570). -/
structure Requirements where
  features : List String
  projectName : Option String
deriving DecidableEq, Repr

/-- The dict returned by `orchestrator.select_tech_stack`; main.py reads the
four framework names only for display (lines 491-496). -/
structure TechStack where
  frontend : String
  backend : String
  database : String
  styling : String
deriving DecidableEq, Repr

/-- The dict returned by `orchestrator.validate_code`: `{"valid": bool,
"errors": [...]}` (lines 545-552). -/
structure ValidationReport where
  valid : Bool
  errors : List String
deriving DecidableEq, Repr

/-- One event of `orchestrator.generate_code_stream` (lines 530-538): either
a `{"type": "file", ...}` update or a `{"type": "progress", ...}` update. -/
inductive StreamUpdate
  | file (filename content : String)
  | progress (message : String)
deriving DecidableEq, Repr

/-- The `ProjectCreate` record built at lines 569-575. -/
structure Project where
  name : String
  description : String
  techStack : TechStack
  files : Files
  previewUrl : Option String
deriving DecidableEq, Repr

/-- The environment of one run: the results of the external collaborators
that `process_user_request` awaits.  A raising Python call is an
`Except.error` (caught by the handler at lines 634-645); the confirmation
prompt `AskActionMessage` yields `confirm = none` when the response window
elapses with no decision, and `some v` when the user picks the action whose
value is `v` ("yes" or "no"). -/
structure Env where
  analyze : Except String Requirements
  selectStack : Requirements → Except String TechStack
  confirm : Option String
  stream : List StreamUpdate
  validate : Files → Except String ValidationReport
  fixIssues : Files → List String → Except String Files
  featureLivePreview : Bool
  createPreview : Files → Except String String

/-- The `generated_files` dict after consuming the whole generation stream
(lines 529-539): file events are applied in order by dict assignment,
progress events only stream a token. -/
def applyStream (updates : List StreamUpdate) : Files :=
  updates.foldl
    (fun fs u =>
      match u with
      | .file n c => insertFile fs n c
      | .progress _ => fs)
    []

/-- Observable outcome of one `process_user_request` run: the final
`generation_status` and `current_project` session values, the run-local
data, and call counts for the validator (line 545) and the repair call
`fix_code_issues` (line 550), each of which has exactly one call site. -/
structure RunResult where
  status : GenStatus
  awaitingInput : Option String
  validationCalls : Nat
  repairCalls : Nat
  reachedStackSelection : Bool
  reachedGeneration : Bool
  generatedFiles : Files
  previewUrl : Option String
  project : Option Project
  deploymentOptions : Option DeploymentOptions
deriving DecidableEq, Repr

/-- Outcome of a run that raised before the confirmation gate, or at the
gate's modify branch: shared shape for the early exits. -/
def earlyExit (status : GenStatus) (awaiting : Option String)
    (reachedStack : Bool) : RunResult :=
  { status := status, awaitingInput := awaiting, validationCalls := 0,
    repairCalls := 0, reachedStackSelection := reachedStack,
    reachedGeneration := false, generatedFiles := [], previewUrl := none,
    project := none, deploymentOptions := none }

/-- Steps 5-6 and the save/complete tail of `process_user_request`
(lines 558-632), entered with the post-repair `generated_files`: the
optional preview call (which raises into the FAILED handler), the advisor
call, the `ProjectCreate`, and the final `COMPLETED` status. -/
def finishStages (env : Env) (user_input : String) (requirements : Requirements)
    (tech_stack : TechStack) (generated_files : Files) (repairs : Nat) : RunResult :=
  match (if env.featureLivePreview
         then (env.createPreview generated_files).map some
         else Except.ok none) with
  | .error _ =>
    { status := .FAILED, awaitingInput := none, validationCalls := 1,
      repairCalls := repairs, reachedStackSelection := true,
      reachedGeneration := true, generatedFiles := generated_files,
      previewUrl := none, project := none, deploymentOptions := none }
  | .ok preview_url =>
    let deployment_options := prepare_deployment_options generated_files
    let project : Project :=
      { name := requirements.projectName.getD "My App",
        description := user_input, techStack := tech_stack,
        files := generated_files, previewUrl := preview_url }
    { status := .COMPLETED, awaitingInput := none, validationCalls := 1,
      repairCalls := repairs, reachedStackSelection := true,
      reachedGeneration := true, generatedFiles := generated_files,
      previewUrl := preview_url, project := some project,
      deploymentOptions := some deployment_options }

/-- One run of `process_user_request` (main.py 463-645).  The run sets
`generation_status = GENERATING`, awaits requirement extraction and stack
selection (a raise lands in the FAILED handler), asks the confirmation
prompt (`value == "no"` returns to IDLE with `awaiting_input =
"custom_stack"`; any other outcome, a "yes" or a timed-out `None` alike,
falls through), folds the generation stream into `generated_files`,
validates once, on an invalid report calls `fix_code_issues` once and does
not re-validate, then runs the preview/advisor/save tail. -/
def process_user_request (env : Env) (user_input : String) : RunResult :=
  match env.analyze with
  | .error _ => earlyExit .FAILED none false
  | .ok requirements =>
    match env.selectStack requirements with
    | .error _ => earlyExit .FAILED none true
    | .ok tech_stack =>
      if env.confirm = some "no" then
        earlyExit .IDLE (some "custom_stack") true
      else
        let generated_files := applyStream env.stream
        match env.validate generated_files with
        | .error _ =>
          { status := .FAILED, awaitingInput := none, validationCalls := 1,
            repairCalls := 0, reachedStackSelection := true,
            reachedGeneration := true, generatedFiles := generated_files,
            previewUrl := none, project := none, deploymentOptions := none }
        | .ok validation_result =>
          if validation_result.valid then
            finishStages env user_input requirements tech_stack generated_files 0
          else
            match env.fixIssues generated_files validation_result.errors with
            | .error _ =>
              { status := .FAILED, awaitingInput := none, validationCalls := 1,
                repairCalls := 1, reachedStackSelection := true,
                reachedGeneration := true, generatedFiles := generated_files,
                previewUrl := none, project := none, deploymentOptions := none }
            | .ok fixed_files =>
              finishStages env user_input requirements tech_stack fixed_files 1

/-! ### Session-level event model (`on_message` 178-235, `on_stop` 238-255)

The handlers run as asyncio tasks over the shared `cl.user_session` values
`generation_status` and `current_project`.  A pipeline run is modelled as
the list of its awaited segments still to execute; each segment mutates the
session exactly as the corresponding lines of `process_user_request` do.
Nothing in the pipeline body reads `generation_status` after line 473, so a
segment's effect never depends on the current status — in particular not on
a `CANCELLED` written by `on_stop` in the meantime. -/

/-- One awaited segment of a running pipeline, at the granularity the
cancellation claims need: a streamed generation event (lines 530-538), an
external validation call (line 545), the `current_project` assignment
(line 576), and the final `COMPLETED` assignment (line 630). -/
inductive PipeSegment
  | streamEvent (filename content : String)
  | validateCall
  | attachProject
  | finishCompleted
deriving DecidableEq, Repr

/-- A pipeline task spawned by `on_message`: its remaining segments and its
run-local `generated_files`. -/
structure PipelineRun where
  remaining : List PipeSegment
  workingFiles : Files
deriving DecidableEq, Repr

/-- The session state shared by the handlers: `generation_status`,
`current_project`, and the pipeline tasks currently alive. -/
structure SysState where
  status : GenStatus
  currentProject : Option Files
  runs : List PipelineRun
deriving DecidableEq, Repr

/-- Fresh session (line 113 sets `generation_status = IDLE`). -/
def initState : SysState :=
  { status := .IDLE, currentProject := none, runs := [] }

/-- The segments of the canonical happy-path run used in concrete traces:
one streamed file, the validation call, then the save/complete tail. -/
def defaultSegments : List PipeSegment :=
  [.streamEvent "main.py" "import fastapi", .validateCall, .attachProject,
   .finishCompleted]

/-- Effect of one segment of run `run` on the session: none of the cases
reads `s.status`, mirroring that `process_user_request` never consults
`generation_status` after starting. `finishCompleted` writes `COMPLETED`
unconditionally (line 630) and ends the task. -/
def applySegment (s : SysState) (run : PipelineRun) :
    SysState × Option PipelineRun :=
  match run.remaining with
  | [] => (s, none)
  | seg :: rest =>
    match seg with
    | .streamEvent n c =>
      (s, some { remaining := rest, workingFiles := insertFile run.workingFiles n c })
    | .validateCall => (s, some { remaining := rest, workingFiles := run.workingFiles })
    | .attachProject =>
      ({ s with currentProject := some run.workingFiles },
       some { remaining := rest, workingFiles := run.workingFiles })
    | .finishCompleted => ({ s with status := .COMPLETED }, none)

/-- `on_message` (lines 218-228 plus line 473): the submission is rejected
iff `generation_status == GENERATING`; otherwise the status becomes
GENERATING and a new pipeline task starts.  The guard at line 220 and the
assignment at line 473 run with no await between them, so they appear here
as one atomic event. -/
def on_message (s : SysState) (segments : List PipeSegment) : SysState :=
  if s.status = GenStatus.GENERATING then s
  else { s with status := .GENERATING,
                runs := s.runs ++ [{ remaining := segments, workingFiles := [] }] }

/-- `on_stop` (lines 238-250): sets `generation_status = CANCELLED` and
nothing else — it neither removes nor signals the running pipeline task. -/
def on_stop (s : SysState) : SysState :=
  { s with status := .CANCELLED }

/-- Events the session can experience: a user submission, the stop button,
or the scheduler running one awaited segment of pipeline task `i`. -/
inductive Event
  | submit
  | stop
  | runSegment (i : Nat)
deriving DecidableEq, Repr

/-- Replace task `i` by its successor, or drop it when it finished. -/
def updateRuns (runs : List PipelineRun) (i : Nat) :
    Option PipelineRun → List PipelineRun
  | some run => runs.set i run
  | none => runs.eraseIdx i

/-- Small-step semantics of one event. -/
def handleEvent (s : SysState) : Event → SysState
  | .submit => on_message s defaultSegments
  | .stop => on_stop s
  | .runSegment i =>
    match s.runs.get? i with
    | none => s
    | some run =>
      let next := applySegment s run
      { next.1 with runs := updateRuns s.runs i next.2 }

/-- Run a whole event trace from a state. -/
def execEvents (s : SysState) (es : List Event) : SysState :=
  es.foldl handleEvent s

/-! ### Helper lemmas -/

/-- A successful lookup is a binding of the list. -/
theorem lookup_mem : ∀ (l : Files) (k v : String),
    lookup l k = some v → (k, v) ∈ l := by
  intro l
  induction l with
  | nil => intro k v h; exact absurd h (by simp [lookup])
  | cons p rest ih =>
    intro k v h
    obtain ⟨k', v'⟩ := p
    simp only [lookup] at h
    split at h
    case isTrue hk =>
      injection h with hv
      have hkk : k' = k := by simpa using hk
      subst hkk
      subst hv
      exact List.mem_cons_self _ _
    case isFalse hk =>
      exact List.mem_cons_of_mem _ (ih k v h)

/-- With duplicate-free keys (a Python dict), every binding is found by lookup. -/
theorem lookup_of_mem_nodup : ∀ (l : Files) (k v : String),
    (l.map Prod.fst).Nodup → (k, v) ∈ l → lookup l k = some v := by
  intro l
  induction l with
  | nil => intro k v _ h; simp at h
  | cons p rest ih =>
    intro k v hnd h
    obtain ⟨k', v'⟩ := p
    rw [List.map_cons, List.nodup_cons] at hnd
    rcases List.mem_cons.mp h with heq | hmem
    · injection heq with h1 h2
      subst h1
      subst h2
      simp [lookup]
    · simp only [lookup]
      by_cases hk : k' == k
      · exfalso
        have hkk : k' = k := by simpa using hk
        subst hkk
        exact hnd.1 (List.mem_map.mpr ⟨(k', v), hmem, rfl⟩)
      · rw [if_neg (by simpa using hk)]
        exact ih k v hnd.2 hmem

/-- On dicts (duplicate-free keys), `has_fastapi` only depends on the
key-to-content mapping, not on the representation order. -/
theorem has_fastapi_ext (l1 l2 : Files)
    (hn1 : (l1.map Prod.fst).Nodup) (hn2 : (l2.map Prod.fst).Nodup)
    (h : ∀ k, lookup l1 k = lookup l2 k) :
    has_fastapi l1 = has_fastapi l2 := by
  have key : ∀ (a b : Files), (a.map Prod.fst).Nodup →
      (∀ k, lookup a k = lookup b k) →
      has_fastapi a = true → has_fastapi b = true := by
    intro a b hna hab hfa
    rw [has_fastapi, List.any_eq_true] at hfa ⊢
    obtain ⟨p, hp, hc⟩ := hfa
    have hl : lookup a p.1 = some p.2 := lookup_of_mem_nodup a p.1 p.2 hna hp
    rw [hab] at hl
    exact ⟨(p.1, p.2), lookup_mem b p.1 p.2 hl, hc⟩
  by_cases hfa : has_fastapi l1 = true
  · rw [hfa]
    exact (key l1 l2 hn1 h hfa).symm
  · by_cases hfb : has_fastapi l2 = true
    · exact absurd (key l2 l1 hn2 (fun k => (h k).symm) hfb) hfa
    · rw [Bool.not_eq_true] at hfa hfb
      rw [hfa, hfb]

/-- Both exits of the pipeline tail mark the stack-selection and generation
stages as reached. -/
theorem finishStages_reached (env : Env) (input : String) (req : Requirements)
    (ts : TechStack) (files : Files) (reps : Nat) :
    (finishStages env input req ts files reps).reachedStackSelection = true ∧
    (finishStages env input req ts files reps).reachedGeneration = true := by
  unfold finishStages
  cases hx : (if env.featureLivePreview
              then (env.createPreview files).map some
              else Except.ok none) <;> simp

/-- Once extraction and stack selection return and the user does not pick
modify, the run always enters the generation stage. -/
theorem run_reaches_generation (env : Env) (input : String) (r : Requirements)
    (ts : TechStack) (h1 : env.analyze = Except.ok r)
    (h2 : env.selectStack r = Except.ok ts)
    (h3 : ¬env.confirm = some "no") :
    (process_user_request env input).reachedGeneration = true := by
  simp only [process_user_request, h1, h2]
  rw [if_neg h3]
  cases hv : env.validate (applyStream env.stream) with
  | error e => simp
  | ok vr =>
    by_cases hvalid : vr.valid = true
    · simp only [hvalid, if_true]
      exact (finishStages_reached ..).2
    · rw [Bool.not_eq_true] at hvalid
      simp only [hvalid, Bool.false_eq_true, if_false]
      cases hf : env.fixIssues (applyStream env.stream) vr.errors with
      | error e => simp
      | ok fixed => exact (finishStages_reached ..).2

/-- Once extraction returns, the run always invokes stack selection. -/
theorem run_reaches_stack_selection (env : Env) (input : String)
    (r : Requirements) (h1 : env.analyze = Except.ok r) :
    (process_user_request env input).reachedStackSelection = true := by
  simp only [process_user_request, h1]
  cases hs : env.selectStack r with
  | error e => simp [earlyExit]
  | ok ts =>
    dsimp only
    by_cases hc : env.confirm = some "no"
    · simp [hc, earlyExit]
    · rw [if_neg hc]
      cases hv : env.validate (applyStream env.stream) with
      | error e => simp
      | ok vr =>
        by_cases hvalid : vr.valid = true
        · simp only [hvalid, if_true]
          exact (finishStages_reached ..).1
        · rw [Bool.not_eq_true] at hvalid
          simp only [hvalid, Bool.false_eq_true, if_false]
          cases hf : env.fixIssues (applyStream env.stream) vr.errors with
          | error e => simp
          | ok fixed => exact (finishStages_reached ..).1

/-! ### Claims about the Deployment Advisor -/

/-- C4 (counterexample): on a GenerationResult matching both the Next.js
rule and the React rule, the advisor does NOT union both rules' outputs:
the `elif` at line 727 drops the React contributions, so `netlify` is
missing from `recommended` and `render` from `supported`. -/
theorem C4_counterexample :
    has_nextjs [("next.config.js", ""), ("package.json", "uses react")] = true ∧
    has_react [("next.config.js", ""), ("package.json", "uses react")] = true ∧
    prepare_deployment_options [("next.config.js", ""), ("package.json", "uses react")] =
      { recommended := ["vercel"], supported := ["netlify", "railway"] } ∧
    "netlify" ∉ (prepare_deployment_options
      [("next.config.js", ""), ("package.json", "uses react")]).recommended ∧
    "render" ∉ (prepare_deployment_options
      [("next.config.js", ""), ("package.json", "uses react")]).supported := by
  decide

/-- C4 (amended): the server-rendered (Next.js) rule and the client-only
(React) rule are mutually exclusive (`elif`): when both match, only the
Next.js rule contributes, and the backend rule is evaluated independently
and its output appended. -/
theorem C4_nextjs_shadows_react (files : Files)
    (h1 : has_nextjs files = true) (_h2 : has_react files = true) :
    prepare_deployment_options files =
      { recommended :=
          "vercel" :: (if has_django files || has_fastapi files then ["railway"] else []),
        supported :=
          ["netlify", "railway"] ++
            (if has_django files || has_fastapi files
             then ["render", "fly.io", "aws"] else []) } := by
  cases h3 : (has_django files || has_fastapi files) <;>
    simp [prepare_deployment_options, h1, h3]

/-- C4 (witness): the amended rule evaluated on a concrete project that
matches the Next.js rule, the React rule and the FastAPI rule. -/
theorem C4_witness :
    prepare_deployment_options
      [("next.config.js", "module"), ("package.json", "react"), ("api.py", "import fastapi")] =
      { recommended :=
          "vercel" ::
            (if has_django [("next.config.js", "module"), ("package.json", "react"),
                            ("api.py", "import fastapi")] ||
                has_fastapi [("next.config.js", "module"), ("package.json", "react"),
                             ("api.py", "import fastapi")]
             then ["railway"] else []),
        supported :=
          ["netlify", "railway"] ++
            (if has_django [("next.config.js", "module"), ("package.json", "react"),
                            ("api.py", "import fastapi")] ||
                has_fastapi [("next.config.js", "module"), ("package.json", "react"),
                             ("api.py", "import fastapi")]
             then ["render", "fly.io", "aws"] else []) } :=
  C4_nextjs_shadows_react _ (by decide) (by decide)

/-- C8: a GenerationResult matching none of the advisor's rules yields
empty `recommended` and empty `supported`, as a normal value. -/
theorem C8_no_match_empty (files : Files)
    (h1 : has_nextjs files = false) (h2 : has_react files = false)
    (h3 : has_django files = false) (h4 : has_fastapi files = false) :
    prepare_deployment_options files = { recommended := [], supported := [] } := by
  simp [prepare_deployment_options, h1, h2, h3, h4]

/-- C8 (witness): a project with only a README matches no rule and gets the
empty options value. -/
theorem C8_witness :
    prepare_deployment_options [("README.md", "hello world")] =
      { recommended := [], supported := [] } :=
  C8_no_match_empty _ (by decide) (by decide) (by decide) (by decide)

/-- C9: the advisor is deterministic and depends only on the path-to-content
mapping: two dict representations (duplicate-free key lists) with the same
lookup function get equal DeploymentOptions.  The embedding is a pure
function of its input, so the source dict is not mutated by construction. -/
theorem C9_advise_deterministic (l1 l2 : Files)
    (hn1 : (l1.map Prod.fst).Nodup) (hn2 : (l2.map Prod.fst).Nodup)
    (h : ∀ k, lookup l1 k = lookup l2 k) :
    prepare_deployment_options l1 = prepare_deployment_options l2 := by
  have e1 : has_nextjs l1 = has_nextjs l2 := by
    simp only [has_nextjs, containsKey, h]
  have e2 : has_react l1 = has_react l2 := by
    simp only [has_react, containsKey, dictGet, h]
  have e3 : has_django l1 = has_django l2 := by
    simp only [has_django, containsKey, h]
  have e4 : has_fastapi l1 = has_fastapi l2 := has_fastapi_ext l1 l2 hn1 hn2 h
  simp only [prepare_deployment_options, e1, e2, e3, e4]

/-- C9 (witness): the same two-file mapping in both representation orders
gets the same DeploymentOptions. -/
theorem C9_witness :
    prepare_deployment_options [("package.json", "react app"), ("main.py", "import fastapi")] =
      prepare_deployment_options [("main.py", "import fastapi"), ("package.json", "react app")] := by
  apply C9_advise_deterministic
  · decide
  · decide
  · intro k
    by_cases h1 : "package.json" = k
    · subst h1; decide
    · by_cases h2 : "main.py" = k
      · subst h2; decide
      · simp [lookup, h1, h2]

/-- C10: the `supported` list is not deduplicated — a React + FastAPI
project lists `render` twice — while `recommended` can never contain a
duplicate (each branch appends one platform, all distinct). -/
theorem C10_supported_not_deduplicated :
    ((prepare_deployment_options
        [("package.json", "a react app"), ("main.py", "import fastapi")]).supported.count
      "render" = 2) ∧
    ∀ files : Files, (prepare_deployment_options files).recommended.Nodup := by
  constructor
  · decide
  · intro files
    cases h1 : has_nextjs files <;> cases h2 : has_react files <;>
      cases h3 : (has_django files || has_fastapi files) <;>
        simp [prepare_deployment_options, h1, h2, h3]

/-! ### Claims about one pipeline run -/

/-- Environment whose validator always reports invalid; everything else
succeeds, repair returns the files unchanged, live preview disabled. -/
def envAlwaysInvalid : Env :=
  { analyze := .ok { features := ["todo list"], projectName := some "Demo" },
    selectStack := fun _ =>
      .ok { frontend := "React", backend := "FastAPI",
            database := "PostgreSQL", styling := "Tailwind" },
    confirm := some "yes",
    stream := [.file "main.py" "import fastapi"],
    validate := fun _ => .ok { valid := false, errors := ["syntax error"] },
    fixIssues := fun fs _ => .ok fs,
    featureLivePreview := false,
    createPreview := fun _ => .error "disabled" }

/-- C1 (counterexample): with a validator that always reports invalid, the
run makes exactly ONE validation call (not `maxRepairAttempts + 1`), repairs
once without re-validating, and ends COMPLETED instead of FAILED — so it is
reported as successful with no validation call that returned valid. -/
theorem C1_counterexample :
    (process_user_request envAlwaysInvalid "build a todo app").validationCalls = 1 ∧
    (process_user_request envAlwaysInvalid "build a todo app").repairCalls = 1 ∧
    (process_user_request envAlwaysInvalid "build a todo app").status = GenStatus.COMPLETED ∧
    (process_user_request envAlwaysInvalid "build a todo app").status ≠ GenStatus.FAILED := by
  decide

/-- C1 (amended): on a validation failure the repair call happens exactly
once, but its output is never re-validated and no repair bound exists: the
run keeps the single validation call and (with the preview stage disabled)
still finishes COMPLETED. -/
theorem C1_repair_without_revalidation (env : Env) (input : String)
    (r : Requirements) (ts : TechStack) (rep : ValidationReport) (fixed : Files)
    (h1 : env.analyze = Except.ok r)
    (h2 : env.selectStack r = Except.ok ts)
    (h3 : ¬env.confirm = some "no")
    (h4 : env.validate (applyStream env.stream) = Except.ok rep)
    (h5 : rep.valid = false)
    (h6 : env.fixIssues (applyStream env.stream) rep.errors = Except.ok fixed)
    (h7 : env.featureLivePreview = false) :
    (process_user_request env input).validationCalls = 1 ∧
    (process_user_request env input).repairCalls = 1 ∧
    (process_user_request env input).status = GenStatus.COMPLETED := by
  simp [process_user_request, h1, h2, h3, h4, h5, h6, finishStages, h7]

/-- C1 (witness): the amended statement applied to the concrete
always-invalid environment. -/
theorem C1_witness :
    (process_user_request envAlwaysInvalid "build me an app").validationCalls = 1 ∧
    (process_user_request envAlwaysInvalid "build me an app").repairCalls = 1 ∧
    (process_user_request envAlwaysInvalid "build me an app").status = GenStatus.COMPLETED :=
  C1_repair_without_revalidation envAlwaysInvalid "build me an app"
    { features := ["todo list"], projectName := some "Demo" }
    { frontend := "React", backend := "FastAPI",
      database := "PostgreSQL", styling := "Tailwind" }
    { valid := false, errors := ["syntax error"] }
    [("main.py", "import fastapi")]
    rfl rfl (by decide) rfl rfl rfl rfl

/-- Environment in which the confirmation prompt times out (`confirm =
none`) and every external call succeeds. -/
def envTimeout : Env :=
  { analyze := .ok { features := ["chat"], projectName := some "Chat App" },
    selectStack := fun _ =>
      .ok { frontend := "Vue", backend := "Flask",
            database := "SQLite", styling := "Bootstrap" },
    confirm := none,
    stream := [.file "app.py" "import flask"],
    validate := fun _ => .ok { valid := true, errors := [] },
    fixIssues := fun fs _ => .ok fs,
    featureLivePreview := false,
    createPreview := fun _ => .error "unused" }

/-- C2 (counterexample): when the confirmation window elapses with no
decision, the run does NOT transition to FAILED — it proceeds through the
generation stage and completes. -/
theorem C2_counterexample :
    envTimeout.confirm = none ∧
    (process_user_request envTimeout "build a chat app").reachedGeneration = true ∧
    (process_user_request envTimeout "build a chat app").status = GenStatus.COMPLETED ∧
    (process_user_request envTimeout "build a chat app").status ≠ GenStatus.FAILED := by
  decide

/-- C2 (amended): a timed-out confirmation prompt (`None` response) is
treated exactly like an explicit confirmation: the run proceeds to the
generation stage and the whole outcome equals the outcome with a "yes"
answer; only an explicit modify decision stops the run. -/
theorem C2_timeout_proceeds (env : Env) (input : String)
    (r : Requirements) (ts : TechStack)
    (h1 : env.analyze = Except.ok r)
    (h2 : env.selectStack r = Except.ok ts)
    (h3 : env.confirm = none) :
    (process_user_request env input).reachedGeneration = true ∧
    process_user_request env input =
      process_user_request { env with confirm := some "yes" } input := by
  constructor
  · exact run_reaches_generation env input r ts h1 h2 (by rw [h3]; intro hc; cases hc)
  · simp [process_user_request, h1, h2, h3, finishStages]

/-- C2 (witness): the amended statement applied to the concrete timed-out
environment. -/
theorem C2_witness :
    (process_user_request envTimeout "build a chat app").reachedGeneration = true ∧
    process_user_request envTimeout "build a chat app" =
      process_user_request { envTimeout with confirm := some "yes" } "build a chat app" :=
  C2_timeout_proceeds envTimeout "build a chat app"
    { features := ["chat"], projectName := some "Chat App" }
    { frontend := "Vue", backend := "Flask",
      database := "SQLite", styling := "Bootstrap" }
    rfl rfl rfl

/-- Environment that reaches the preview stage (live preview enabled,
validation passes) and whose preview call raises. -/
def envPreviewFail : Env :=
  { analyze := .ok { features := ["blog"], projectName := some "Blog" },
    selectStack := fun _ =>
      .ok { frontend := "Next.js", backend := "FastAPI",
            database := "PostgreSQL", styling := "Tailwind" },
    confirm := some "yes",
    stream := [.file "pages.js" "export default Page"],
    validate := fun _ => .ok { valid := true, errors := [] },
    fixIssues := fun fs _ => .ok fs,
    featureLivePreview := true,
    createPreview := fun _ => .error "preview service down" }

/-- C3 (counterexample): a run that reaches the preview stage and whose
preview call raises ends FAILED with no project — preview creation is not
best-effort. -/
theorem C3_counterexample :
    envPreviewFail.featureLivePreview = true ∧
    (process_user_request envPreviewFail "build a blog").reachedGeneration = true ∧
    (process_user_request envPreviewFail "build a blog").validationCalls = 1 ∧
    (process_user_request envPreviewFail "build a blog").status = GenStatus.FAILED ∧
    (process_user_request envPreviewFail "build a blog").project = none := by
  decide

/-- C3 (amended): with the live-preview feature enabled, a raised error in
the preview call lands in the generic exception handler and moves the run
to FAILED with no project attached; a run completes without a preview URL
only when the feature flag is disabled. -/
theorem C3_preview_failure_fails_run (env : Env) (input : String)
    (r : Requirements) (ts : TechStack) (rep : ValidationReport) (msg : String)
    (h1 : env.analyze = Except.ok r)
    (h2 : env.selectStack r = Except.ok ts)
    (h3 : ¬env.confirm = some "no")
    (h4 : env.validate (applyStream env.stream) = Except.ok rep)
    (h5 : rep.valid = true)
    (h6 : env.featureLivePreview = true)
    (h7 : env.createPreview (applyStream env.stream) = Except.error msg) :
    (process_user_request env input).status = GenStatus.FAILED ∧
    (process_user_request env input).project = none := by
  simp [process_user_request, h1, h2, h3, h4, h5, finishStages, h6, h7, Except.map]

/-- C3 (witness): the amended statement applied to the concrete
failing-preview environment. -/
theorem C3_witness :
    (process_user_request envPreviewFail "build a blog").status = GenStatus.FAILED ∧
    (process_user_request envPreviewFail "build a blog").project = none :=
  C3_preview_failure_fails_run envPreviewFail "build a blog"
    { features := ["blog"], projectName := some "Blog" }
    { frontend := "Next.js", backend := "FastAPI",
      database := "PostgreSQL", styling := "Tailwind" }
    { valid := true, errors := [] }
    "preview service down"
    rfl rfl (by decide) rfl rfl rfl rfl

/-- Environment whose requirement extraction succeeds with an empty feature
list and whose remaining calls all succeed. -/
def envEmptyFeatures : Env :=
  { analyze := .ok { features := [], projectName := some "Mystery App" },
    selectStack := fun _ =>
      .ok { frontend := "React", backend := "Django",
            database := "MySQL", styling := "Bootstrap" },
    confirm := some "yes",
    stream := [.file "manage.py" "import django"],
    validate := fun _ => .ok { valid := true, errors := [] },
    fixIssues := fun fs _ => .ok fs,
    featureLivePreview := false,
    createPreview := fun _ => .error "unused" }

/-- C5 (counterexample): an extraction result with an empty feature list
does NOT fail the run: it proceeds through stack selection, confirmation
and generation and ends COMPLETED. -/
theorem C5_counterexample :
    envEmptyFeatures.analyze =
      Except.ok { features := [], projectName := some "Mystery App" } ∧
    (process_user_request envEmptyFeatures "do something").reachedStackSelection = true ∧
    (process_user_request envEmptyFeatures "do something").reachedGeneration = true ∧
    (process_user_request envEmptyFeatures "do something").status = GenStatus.COMPLETED := by
  refine ⟨rfl, ?_, ?_, ?_⟩ <;> decide

/-- C5 (amended): the run never inspects the extracted feature list (it is
only counted for display), so extraction returning no features still
proceeds to the stack-selection stage; only a raised extraction error fails
the run at this point. -/
theorem C5_empty_features_proceeds (env : Env) (input : String)
    (name : Option String)
    (h1 : env.analyze = Except.ok { features := [], projectName := name }) :
    (process_user_request env input).reachedStackSelection = true :=
  run_reaches_stack_selection env input { features := [], projectName := name } h1

/-- C5 (witness): the amended statement applied to the concrete
empty-features environment. -/
theorem C5_witness :
    (process_user_request envEmptyFeatures "do something").reachedStackSelection = true :=
  C5_empty_features_proceeds envEmptyFeatures "do something" (some "Mystery App") rfl

/-! ### Claims about the session-level handlers -/

/-- C6 (counterexample): after submit followed by stop, the first pipeline
task is still alive (non-terminal) with the session status CANCELLED — and a
second submit on the same session is then accepted, leaving two live
pipeline runs at once. -/
theorem C6_counterexample :
    (execEvents initState [Event.submit, Event.stop]).status = GenStatus.CANCELLED ∧
    (execEvents initState [Event.submit, Event.stop]).runs.length = 1 ∧
    ((execEvents initState [Event.submit, Event.stop]).runs.all
      fun r => !r.remaining.isEmpty) = true ∧
    (execEvents initState [Event.submit, Event.stop, Event.submit]).runs.length = 2 := by
  decide

/-- C6 (amended): a second submission is rejected only while
`generation_status == GENERATING` (the guard at line 220), in which case the
handler leaves the session unchanged; with any other status — including a
CANCELLED just written by `on_stop` while the first pipeline is still live —
a new pipeline run is started. -/
theorem C6_single_flight_guard (s : SysState) :
    (s.status = GenStatus.GENERATING → handleEvent s Event.submit = s) ∧
    (¬s.status = GenStatus.GENERATING →
      (handleEvent s Event.submit).runs.length = s.runs.length + 1 ∧
      (handleEvent s Event.submit).status = GenStatus.GENERATING) := by
  constructor
  · intro h
    simp [handleEvent, on_message, h]
  · intro h
    simp [handleEvent, on_message, h]

/-- C6 (witness): the guard instantiated at a GENERATING session with one
live run: the second submission is a no-op. -/
theorem C6_witness :
    handleEvent
      { status := GenStatus.GENERATING, currentProject := none,
        runs := [{ remaining := defaultSegments, workingFiles := [] }] }
      Event.submit =
      { status := GenStatus.GENERATING, currentProject := none,
        runs := [{ remaining := defaultSegments, workingFiles := [] }] } :=
  (C6_single_flight_guard _).1 rfl

/-- Trace driving a run to completion after the stop signal was delivered. -/
def cancelThenRunTrace : List Event :=
  [Event.submit, Event.stop, Event.runSegment 0, Event.runSegment 0,
   Event.runSegment 0, Event.runSegment 0]

/-- C7 (counterexample): after `on_stop` has set the session to CANCELLED,
the running pipeline still appends the next streamed generation event to its
working GenerationResult, still attaches the project to the session, and
still overwrites the status with COMPLETED. -/
theorem C7_counterexample :
    (execEvents initState [Event.submit, Event.stop]).status = GenStatus.CANCELLED ∧
    (execEvents initState [Event.submit, Event.stop, Event.runSegment 0]).runs =
      [{ remaining := [.validateCall, .attachProject, .finishCompleted],
         workingFiles := [("main.py", "import fastapi")] }] ∧
    (execEvents initState cancelThenRunTrace).currentProject =
      some [("main.py", "import fastapi")] ∧
    (execEvents initState cancelThenRunTrace).status = GenStatus.COMPLETED := by
  decide

/-- C7 (amended): the cancellation signal is only a status write that the
pipeline never observes: executing the next pipeline segment from a
CANCELLED session updates the runs and the attached project exactly as it
would from a GENERATING session — late results are applied, not
discarded. -/
theorem C7_cancellation_not_observed (s : SysState) (i : Nat)
    (h : s.status = GenStatus.CANCELLED) :
    (handleEvent s (Event.runSegment i)).runs =
      (handleEvent { s with status := GenStatus.GENERATING } (Event.runSegment i)).runs ∧
    (handleEvent s (Event.runSegment i)).currentProject =
      (handleEvent { s with status := GenStatus.GENERATING }
        (Event.runSegment i)).currentProject := by
  cases s with
  | mk st cp runs =>
    simp only [handleEvent]
    cases hg : runs.get? i with
    | none => simp
    | some run =>
      cases run with
      | mk rem wf =>
        cases rem with
        | nil => simp [applySegment, updateRuns]
        | cons seg rest => cases seg <;> simp [applySegment, updateRuns]

/-- C7 (witness): the amended statement at a concrete CANCELLED session with
one live run about to apply a streamed file event. -/
theorem C7_witness :
    (handleEvent
        { status := GenStatus.CANCELLED, currentProject := none,
          runs := [{ remaining := defaultSegments, workingFiles := [] }] }
        (Event.runSegment 0)).runs =
      (handleEvent
          { status := GenStatus.GENERATING, currentProject := none,
            runs := [{ remaining := defaultSegments, workingFiles := [] }] }
          (Event.runSegment 0)).runs ∧
    (handleEvent
        { status := GenStatus.CANCELLED, currentProject := none,
          runs := [{ remaining := defaultSegments, workingFiles := [] }] }
        (Event.runSegment 0)).currentProject =
      (handleEvent
          { status := GenStatus.GENERATING, currentProject := none,
            runs := [{ remaining := defaultSegments, workingFiles := [] }] }
          (Event.runSegment 0)).currentProject :=
  C7_cancellation_not_observed
    { status := GenStatus.CANCELLED, currentProject := none,
      runs := [{ remaining := defaultSegments, workingFiles := [] }] }
    0 rfl

end ChisCode
